import Mathlib

/-!
Shallow embedding of the wrapped-value algebra in `Engine/dsl/T.py` of the
akkadian repository: the `T` wrapped-value type (payload + certainty factor),
the binary arithmetic/comparison dispatcher (`process_binary`,
`process_binary_mult`), the stub sentinel, the tri-state logic combinators
(`And` / `Or` / `Not`), the conditional selector (`If`), and the public
`~` / `!=` operators, together with theorems settling the specification's
claims about them.

Python payloads are modelled by the inductive type `Val`; certainty factors
(Python numbers) are modelled by `ℚ`.  Python identity checks (`is None`,
`is False`, `is True`, `is 0`) are modelled by constructor matches — in
CPython these literals are unique interned objects, so `x is False` holds
exactly for the boolean `False` (never for the number `0`), and `x is 0`
holds exactly for the integer `0` (never for `False`).  Python `==` against
the stub marker (a string) is string equality.
-/

namespace Akkadian

/-- A Python payload held by a `T` object or passed bare: `None`, a boolean,
an integer scalar, a string scalar, or a `traces` time series (modelled as a
list of (timestamp, value) pairs in ascending timestamp order). -/
inductive Val where
  | none
  | bool (b : Bool)
  | int (n : Int)
  | str (s : String)
  | ts (pairs : List (String × Val))

/-- Python truthiness (`bool(v)`): `None` is falsy, numbers are falsy at 0,
strings are falsy when empty.  A bare `traces` series is modelled as truthy
(a library detail not exercised by the dsl's own code paths). -/
def truthy : Val → Bool
  | .none => false
  | .bool b => b
  | .int n => n != 0
  | .str s => s != ""
  | .ts _ => true

/-- Python `v is None`. -/
def val_is_none : Val → Bool
  | .none => true
  | _ => false

/-- Python `v is False` (identity with the boolean literal; the number `0`
is a different object). -/
def val_is_false : Val → Bool
  | .bool false => true
  | _ => false

/-- Python `v is True` (identity with the boolean literal; the number `1`
is a different object). -/
def val_is_true : Val → Bool
  | .bool true => true
  | _ => false

/-- Python `v is 0` (identity with the interned integer `0`; `False` and
non-integer zeros are different objects). -/
def is_zero : Val → Bool
  | .int 0 => true
  | _ => false

/-- `StubVal = "#stub#"`: the string used internally to indicate that a `T`
object is a stub. -/
def StubVal : Val := .str "#stub#"

/-- Python `v == StubVal`: equality against the marker string.  `None`,
booleans, numbers and series never equal a string; a string equals the
marker exactly when it has the same text. -/
def eq_stubval : Val → Bool
  | .str s => s == "#stub#"
  | _ => false

/-- Step / last-known-value lookup used by the time-series model: the value
at the greatest timestamp ≤ `t`, or `Option.none` before the first
timestamp.  ISO date strings are compared lexicographically, which is their
chronological order. -/
def tsAt (pairs : List (String × Val)) (t : String) : Option Val :=
  ((pairs.filter (fun e => (compare e.1 t).isLE)).map Prod.snd).getLast?

/-- Timestamps present in either input series, first series' order first. -/
def tsTimes (p q : List (String × Val)) : List String :=
  p.map Prod.fst ++ (q.map Prod.fst).filter (fun t => !(p.map Prod.fst).contains t)

/-- Modelled from the spec: `traces.TimeSeries.operation` (the external
time-series library behind `apply_binary_ts_fcn`) — for every timestamp
present in either input, evaluate `f` against the step/last-known values of
both inputs at that timestamp; timestamps at which a side has not started
yet are omitted (behavior before both series start is left to the adapter
contract).  A non-series operand is combined pointwise against every value
of the series. -/
def ts_operation (f : Val → Val → Val) : Val → Val → Val
  | .ts p, .ts q =>
      .ts ((tsTimes p q).filterMap (fun t =>
        match tsAt p t, tsAt q t with
        | some x, some y => some (t, f x y)
        | _, _ => Option.none))
  | .ts p, w => .ts (p.map (fun e => (e.1, f e.2 w)))
  | v, .ts q => .ts (q.map (fun e => (e.1, f v e.2)))
  | v, w => f v w

/-- `apply_binary_ts_fcn(f, ts1, ts2)`: apply a binary function to the
values in two time series (delegates to the external `operation`). -/
def apply_binary_ts_fcn (f : Val → Val → Val) (ts1 ts2 : Val) : Val :=
  ts_operation f ts1 ts2

/-- `apply_unary_ts_fcn(f, ts)`: apply a unary function to the values in a
time series, implemented in the source as `ts.operation(ts, λ x y, f x)`. -/
def apply_unary_ts_fcn (f : Val → Val) (tsv : Val) : Val :=
  apply_binary_ts_fcn (fun x _ => f x) tsv tsv

/-- Whether a payload is a `traces` time series (`type(value) is TimeSeries`,
computed by `T.__init__` into the `ts` flag). -/
def isTS : Val → Bool
  | .ts _ => true
  | _ => false

/-- A `T` object: substantive content (`value`) plus certainty factor
(`cf`).  The `ts` indicator of the source is derived from the payload type
at construction and is recovered by `T.ts` below. -/
structure T where
  value : Val
  cf : ℚ

/-- The `ts` (time-series indicator) attribute set by `T.__init__`. -/
def T.ts (t : T) : Bool := isTS t.value

/-- An argument position that accepts either a `T` object or a bare Python
value — the dsl's operators take both. -/
inductive Operand where
  | wrapped (t : T)
  | bare (v : Val)

/-- `get_cf(a)`: the certainty factor of a `T` object, or 1 for a bare
value. -/
def get_cf : Operand → ℚ
  | .wrapped t => t.cf
  | .bare _ => 1

/-- `get_val(a)`: the value of a `T` object, or the bare value itself. -/
def get_val : Operand → Val
  | .wrapped t => t.value
  | .bare v => v

/-- `is_ts_T(a)`: a `T` whose contents is a time series (a bare series does
not qualify). -/
def is_ts_T : Operand → Bool
  | .wrapped t => t.ts
  | .bare _ => false

/-- `is_none(a)`: a `T` with a value of `None` (the bare `None` does not
qualify). -/
def is_none : Operand → Bool
  | .wrapped t => val_is_none t.value
  | .bare _ => false

/-- `Stub(cf)`: a fresh stub `T` object. -/
def Stub (cf : ℚ) : T := ⟨StubVal, cf⟩

/-- `is_stub(a)`: not a time-series `T`, and its value equals the marker
string. -/
def is_stub (a : Operand) : Bool := !is_ts_T a && eq_stubval (get_val a)

/-- `cf_conj(a, b)`: certainty factor of a conjunction. -/
def cf_conj (a b : ℚ) : ℚ := a * b

/-- `cf_disj(a, b)`: certainty factor of a disjunction. -/
def cf_disj (a b : ℚ) : ℚ := a + b - a * b

/-- `process_binary(f, a, b)`: internal processing of most binary
operators — certainty first, then stub short-circuit, then unset (`None`)
short-circuit, then pointwise time-series application, then scalar
application. -/
def process_binary (f : Val → Val → Val) (a b : Operand) : T :=
  let cf := cf_conj (get_cf a) (get_cf b)
  if is_stub a || is_stub b then Stub cf
  else if is_none a || is_none b then ⟨Val.none, cf⟩
  else if is_ts_T a || is_ts_T b then ⟨apply_binary_ts_fcn f (get_val a) (get_val b), cf⟩
  else ⟨f (get_val a) (get_val b), cf⟩

/-- Python `x * y` on numbers (booleans count as 0/1); other operand types
raise `TypeError` in the source and are left as `None` here, behind the
dispatcher's guards. -/
def toIntOpt : Val → Option Int
  | .int n => some n
  | .bool b => some (if b then 1 else 0)
  | _ => Option.none

/-- `operator.mul` on raw payloads. -/
def pyMul (x y : Val) : Val :=
  match toIntOpt x, toIntOpt y with
  | some m, some n => .int (m * n)
  | _, _ => Val.none

/-- `operator.add` on raw payloads (numbers add, strings concatenate). -/
def pyAdd (x y : Val) : Val :=
  match x, y with
  | .str s, .str t => .str (s ++ t)
  | x, y =>
      match toIntOpt x, toIntOpt y with
      | some m, some n => .int (m + n)
      | _, _ => Val.none

/-- Python `==` on raw payloads (`operator.eq`): `True == 1` and
`False == 0` hold across bool/int; strings compare by text; `None` equals
only itself; distinct kinds are unequal. -/
def pyEqB : Val → Val → Bool
  | .none, .none => true
  | .bool a, .bool b => a == b
  | .int m, .int n => m == n
  | .bool a, .int n => (if a then (1 : Int) else 0) == n
  | .int n, .bool a => n == (if a then (1 : Int) else 0)
  | .str s, .str t => s == t
  | _, _ => false

/-- `operator.eq` as a payload-producing function. -/
def pyEq (x y : Val) : Val := .bool (pyEqB x y)

/-- `process_binary_mult(a, b)`: special case for multiplication — the
zero-identity check (`get_val(a) is 0 or get_val(b) is 0`) short-circuits
before the stub and unset checks. -/
def process_binary_mult (a b : Operand) : T :=
  let cf := cf_conj (get_cf a) (get_cf b)
  if is_zero (get_val a) || is_zero (get_val b) then ⟨Val.int 0, cf⟩
  else if is_stub a || is_stub b then Stub cf
  else if is_none a || is_none b then ⟨Val.none, cf⟩
  else if is_ts_T a || is_ts_T b then ⟨apply_binary_ts_fcn pyMul (get_val a) (get_val b), cf⟩
  else ⟨pyMul (get_val a) (get_val b), cf⟩

/-- `internal_and(a, b)`. -/
def more_internal_and (a b : Val) (cf : ℚ) : T :=
  if val_is_false a || val_is_false b then ⟨.bool false, cf⟩
  else if val_is_none a || val_is_none b then ⟨Val.none, cf⟩
  else if eq_stubval a || eq_stubval b then Stub cf
  else ⟨.bool true, cf⟩

/-- `internal_and(a, b)`: payload truth table at conjunctive certainty. -/
def internal_and (a b : Operand) : T :=
  more_internal_and (get_val a) (get_val b) (get_cf a * get_cf b)

/-- `more_internal_or(a, b, cf)`. -/
def more_internal_or (a b : Val) (cf : ℚ) : T :=
  if val_is_true a || val_is_true b then ⟨.bool true, cf⟩
  else if val_is_none a || val_is_none b then ⟨Val.none, cf⟩
  else if eq_stubval a || eq_stubval b then Stub cf
  else ⟨.bool false, cf⟩

/-- `internal_or(a, b)`: payload truth table at probabilistic-sum
certainty. -/
def internal_or (a b : Operand) : T :=
  more_internal_or (get_val a) (get_val b) (get_cf a + get_cf b - get_cf a * get_cf b)

/-- `And(*args)`: left fold of `internal_and` over the argument list
(`functools.reduce`), starting from the first argument. -/
def And (a : Operand) (rest : List Operand) : Operand :=
  rest.foldl (fun acc x => .wrapped (internal_and acc x)) a

/-- `Or(*args)`: left fold of `internal_or` over the argument list. -/
def Or (a : Operand) (rest : List Operand) : Operand :=
  rest.foldl (fun acc x => .wrapped (internal_or acc x)) a

/-- Pointwise action of the source's `Not` on a raw (unwrapped) value stored
inside a time series: an unwrapped stub string is returned as is, anything
else becomes its truthiness complement (the source wraps that complement in
a fresh `T` inside the series; the series model keeps the raw payload). -/
def notRaw (v : Val) : Val :=
  if eq_stubval v then v else .bool (!truthy v)

/-- `Not(a)`: propagate unset and stub unchanged, map over a wrapped time
series, otherwise complement the payload's truthiness at the argument's
certainty. -/
def Not (a : Operand) : Operand :=
  if is_none a || is_stub a then a
  else if is_ts_T a then .wrapped ⟨apply_unary_ts_fcn notRaw (get_val a), get_cf a⟩
  else .wrapped ⟨.bool (!truthy (get_val a)), get_cf a⟩

/-- `T(b)` lifting as done inside `If`: a `T` argument is returned as is, a
bare value is wrapped at certainty 1. -/
def liftOperand : Operand → Operand
  | .wrapped t => .wrapped t
  | .bare v => .wrapped ⟨v, 1⟩

/-- `If(a, b, c)`: return the condition itself when its payload is unset or
stub, otherwise select and lift the branch by the payload's truthiness. -/
def If (a b c : Operand) : Operand :=
  if is_none a || is_stub a then a
  else if truthy (get_val a) then liftOperand b
  else liftOperand c

/-- `T.__invert__` (the public `~`): a `None` payload is rebuilt at default
certainty 1, anything else is truthiness-complemented at the argument's
certainty. -/
def T.invert (t : T) : T :=
  if val_is_none t.value then ⟨Val.none, 1⟩ else ⟨.bool (!truthy t.value), t.cf⟩

/-- `T.__ne__` (the public `!=`): `~ (self == o)`. -/
def T.ne (t : T) (o : Operand) : T :=
  T.invert (process_binary pyEq (.wrapped t) o)

/-- The four logic payload states a tri-state operand can hold. -/
inductive LPay where
  | ltrue
  | lfalse
  | lunset
  | lstub
deriving DecidableEq

/-- The payload each logic state denotes in the source: the booleans,
`None`, and the stub marker string. -/
def LPay.toVal : LPay → Val
  | .ltrue => .bool true
  | .lfalse => .bool false
  | .lunset => Val.none
  | .lstub => StubVal

/-- Truth table following the spec's words for AND: `False` dominates, then
`Unset`, then `Stub`, else `True`. -/
def specAndTable (x y : LPay) : LPay :=
  if x = .lfalse ∨ y = .lfalse then .lfalse
  else if x = .lunset ∨ y = .lunset then .lunset
  else if x = .lstub ∨ y = .lstub then .lstub
  else .ltrue

/-- Truth table following the spec's words for OR: `True` dominates, then
`Unset`, then `Stub`, else `False`. -/
def specOrTable (x y : LPay) : LPay :=
  if x = .ltrue ∨ y = .ltrue then .ltrue
  else if x = .lunset ∨ y = .lunset then .lunset
  else if x = .lstub ∨ y = .lstub then .lstub
  else .lfalse

/-- Every branch of `process_binary` carries the conjunctive certainty. -/
theorem process_binary_cf (f : Val → Val → Val) (a b : Operand) :
    (process_binary f a b).cf = get_cf a * get_cf b := by
  simp only [process_binary, cf_conj]
  split_ifs <;> rfl

/-- Every branch of `process_binary_mult` carries the conjunctive
certainty. -/
theorem process_binary_mult_cf (a b : Operand) :
    (process_binary_mult a b).cf = get_cf a * get_cf b := by
  simp only [process_binary_mult, cf_conj]
  split_ifs <;> rfl

/-- Every branch of `more_internal_and` carries the given certainty. -/
theorem more_internal_and_cf (a b : Val) (cf : ℚ) :
    (more_internal_and a b cf).cf = cf := by
  simp only [more_internal_and]
  split_ifs <;> rfl

/-- Every branch of `more_internal_or` carries the given certainty. -/
theorem more_internal_or_cf (a b : Val) (cf : ℚ) :
    (more_internal_or a b cf).cf = cf := by
  simp only [more_internal_or]
  split_ifs <;> rfl

/-- **C1**: for every binary dispatch `process_binary f a b` (and for
`process_binary_mult` when neither raw payload is the integer zero) the
result's certainty factor is `cf(a) * cf(b)` in every branch; a stub operand
yields a stub result with that certainty without `f` being applied, and
otherwise an unset (`None`) operand yields an unset result with that
certainty without `f` being applied — so the stub check precedes the unset
check and `Stub + Unset` is a stub. -/
theorem binary_dispatch_stub_unset (f : Val → Val → Val) (a b : Operand) :
    (process_binary f a b).cf = get_cf a * get_cf b ∧
    (process_binary_mult a b).cf = get_cf a * get_cf b ∧
    ((is_stub a || is_stub b) = true →
      process_binary f a b = Stub (get_cf a * get_cf b) ∧
      ((is_zero (get_val a) || is_zero (get_val b)) = false →
        process_binary_mult a b = Stub (get_cf a * get_cf b))) ∧
    ((is_stub a || is_stub b) = false → (is_none a || is_none b) = true →
      process_binary f a b = ⟨Val.none, get_cf a * get_cf b⟩ ∧
      ((is_zero (get_val a) || is_zero (get_val b)) = false →
        process_binary_mult a b = ⟨Val.none, get_cf a * get_cf b⟩)) := by
  refine ⟨process_binary_cf f a b, process_binary_mult_cf a b, ?_, ?_⟩
  · intro h
    constructor
    · simp [process_binary, cf_conj, h]
    · intro hz
      simp [process_binary_mult, cf_conj, h, hz]
  · intro h hn
    constructor
    · simp [process_binary, cf_conj, h, hn]
    · intro hz
      simp [process_binary_mult, cf_conj, h, hn, hz]

/-- Witness for C1: `Stub + Unset` is a stub (for both the generic add
dispatch and multiplication), and `Unset + 5` is unset, at certainty
`1 * 1`. -/
theorem binary_dispatch_stub_unset_witness :
    process_binary pyAdd (.wrapped (Stub 1)) (.wrapped ⟨Val.none, 1⟩) = Stub (1 * 1) ∧
    process_binary_mult (.wrapped (Stub 1)) (.wrapped ⟨Val.none, 1⟩) = Stub (1 * 1) ∧
    process_binary pyAdd (.wrapped ⟨Val.none, 1⟩) (.bare (Val.int 5)) = ⟨Val.none, 1 * 1⟩ :=
  ⟨((binary_dispatch_stub_unset pyAdd (.wrapped (Stub 1)) (.wrapped ⟨Val.none, 1⟩)).2.2.1
      (by decide)).1,
   ((binary_dispatch_stub_unset pyAdd (.wrapped (Stub 1)) (.wrapped ⟨Val.none, 1⟩)).2.2.1
      (by decide)).2 (by decide),
   ((binary_dispatch_stub_unset pyAdd (.wrapped ⟨Val.none, 1⟩) (.bare (Val.int 5))).2.2.2
      (by decide) (by decide)).1⟩

/-- **C2**: multiplication short-circuits on a zero payload before the stub
and unset checks — whenever either raw payload is the integer zero, the
result is the wrapped scalar `0` at certainty `cf(a) * cf(b)`, whatever the
other operand holds and whichever side the zero is on. -/
theorem mult_zero_short_circuit (a b : Operand)
    (h : (is_zero (get_val a) || is_zero (get_val b)) = true) :
    process_binary_mult a b = ⟨Val.int 0, get_cf a * get_cf b⟩ := by
  simp [process_binary_mult, cf_conj, h]

/-- Witness for C2: `Stub × 0` (zero on the right, a stub on the left) is
the wrapped `0` at the product certainty. -/
theorem mult_zero_short_circuit_witness :
    process_binary_mult (.wrapped (Stub (1/2))) (.wrapped ⟨Val.int 0, 1/3⟩)
      = ⟨Val.int 0, (1/2 : ℚ) * (1/3)⟩ :=
  mult_zero_short_circuit _ _ (by decide)

/-- **C3**: for operands holding logic payloads, `internal_and` produces
the payload given by the spec's AND precedence table (`False` dominant over
`Unset` over `Stub` over `True`) at certainty `cf(a) * cf(b)`; in
particular AND(False, Stub) = False, AND(Unset, Stub) = Unset,
AND(Stub, Stub) = Stub and AND(True, True) = True. -/
theorem and_truth_table (a b : Operand) (x y : LPay)
    (ha : get_val a = x.toVal) (hb : get_val b = y.toVal) :
    internal_and a b = ⟨(specAndTable x y).toVal, get_cf a * get_cf b⟩ := by
  unfold internal_and
  rw [ha, hb]
  cases x <;> cases y <;>
    simp [more_internal_and, specAndTable, LPay.toVal, val_is_false, val_is_none,
      eq_stubval, Stub, StubVal]

/-- Witness for C3: the four listed instances, at certainty `1 * 1`. -/
theorem and_truth_table_witness :
    internal_and (.wrapped ⟨.bool false, 1⟩) (.wrapped (Stub 1)) = ⟨.bool false, 1 * 1⟩ ∧
    internal_and (.wrapped ⟨Val.none, 1⟩) (.wrapped (Stub 1)) = ⟨Val.none, 1 * 1⟩ ∧
    internal_and (.wrapped (Stub 1)) (.wrapped (Stub 1)) = ⟨StubVal, 1 * 1⟩ ∧
    internal_and (.wrapped ⟨.bool true, 1⟩) (.wrapped ⟨.bool true, 1⟩) = ⟨.bool true, 1 * 1⟩ :=
  ⟨and_truth_table _ _ .lfalse .lstub rfl rfl,
   and_truth_table _ _ .lunset .lstub rfl rfl,
   and_truth_table _ _ .lstub .lstub rfl rfl,
   and_truth_table _ _ .ltrue .ltrue rfl rfl⟩

/-- **C4**: for operands holding logic payloads, `internal_or` produces the
payload given by the spec's OR precedence table (`True` dominant over
`Unset` over `Stub` over `False`) at certainty
`cf(a) + cf(b) − cf(a) * cf(b)`; in particular OR(True, Stub) = True,
OR(Unset, Stub) = Unset, OR(Stub, Stub) = Stub and
OR(False, False) = False. -/
theorem or_truth_table (a b : Operand) (x y : LPay)
    (ha : get_val a = x.toVal) (hb : get_val b = y.toVal) :
    internal_or a b
      = ⟨(specOrTable x y).toVal, get_cf a + get_cf b - get_cf a * get_cf b⟩ := by
  unfold internal_or
  rw [ha, hb]
  cases x <;> cases y <;>
    simp [more_internal_or, specOrTable, LPay.toVal, val_is_true, val_is_none,
      eq_stubval, Stub, StubVal]

/-- Witness for C4: the four listed instances, at certainty
`1 + 1 − 1 * 1`. -/
theorem or_truth_table_witness :
    internal_or (.wrapped ⟨.bool true, 1⟩) (.wrapped (Stub 1)) = ⟨.bool true, 1 + 1 - 1 * 1⟩ ∧
    internal_or (.wrapped ⟨Val.none, 1⟩) (.wrapped (Stub 1)) = ⟨Val.none, 1 + 1 - 1 * 1⟩ ∧
    internal_or (.wrapped (Stub 1)) (.wrapped (Stub 1)) = ⟨StubVal, 1 + 1 - 1 * 1⟩ ∧
    internal_or (.wrapped ⟨.bool false, 1⟩) (.wrapped ⟨.bool false, 1⟩)
      = ⟨.bool false, 1 + 1 - 1 * 1⟩ :=
  ⟨or_truth_table _ _ .ltrue .lstub rfl rfl,
   or_truth_table _ _ .lunset .lstub rfl rfl,
   or_truth_table _ _ .lstub .lstub rfl rfl,
   or_truth_table _ _ .lfalse .lfalse rfl rfl⟩

/-- **C5**: on a wrapped boolean payload, `Not` complements the payload and
keeps the certainty, so `Not` is an involution there; on an unset or stub
payload, `Not` returns the argument itself (payload and certainty
untouched). -/
theorem not_involution_fixed_points (t : T) :
    (∀ b : Bool, t.value = .bool b →
      Not (.wrapped t) = .wrapped ⟨.bool !b, t.cf⟩ ∧
      Not (Not (.wrapped t)) = .wrapped t) ∧
    ((t.value = Val.none ∨ t.value = StubVal) → Not (.wrapped t) = .wrapped t) := by
  obtain ⟨v, q⟩ := t
  constructor
  · rintro b rfl
    cases b <;>
      simp [Not, is_none, is_stub, is_ts_T, T.ts, isTS, val_is_none, eq_stubval,
        get_val, get_cf, truthy]
  · rintro (rfl | rfl) <;>
      simp [Not, is_none, is_stub, is_ts_T, T.ts, isTS, val_is_none, eq_stubval,
        get_val, StubVal]

/-- Witness for C5: double negation on a wrapped `True`, and the stub and
unset fixed points at certainty `1/2`. -/
theorem not_involution_fixed_points_witness :
    Not (Not (.wrapped ⟨.bool true, 1⟩)) = .wrapped ⟨.bool true, 1⟩ ∧
    Not (.wrapped (Stub (1/2))) = .wrapped (Stub (1/2)) ∧
    Not (.wrapped ⟨Val.none, 1/2⟩) = .wrapped ⟨Val.none, 1/2⟩ :=
  ⟨((not_involution_fixed_points ⟨.bool true, 1⟩).1 true rfl).2,
   (not_involution_fixed_points (Stub (1/2))).2 (by right; rfl),
   (not_involution_fixed_points ⟨Val.none, 1/2⟩).2 (by left; rfl)⟩

/-- **C6**: whatever the payloads, AND carries certainty
`cf(a) * cf(b)` and OR carries `cf(a) + cf(b) − cf(a) * cf(b)`, and these
certainties are commutative and associative in the operands' certainty
factors. -/
theorem cf_algebra (a b c : Operand) :
    (internal_and a b).cf = cf_conj (get_cf a) (get_cf b) ∧
    (internal_or a b).cf = cf_disj (get_cf a) (get_cf b) ∧
    (internal_and a b).cf = (internal_and b a).cf ∧
    (internal_or a b).cf = (internal_or b a).cf ∧
    (internal_and (.wrapped (internal_and a b)) c).cf
      = (internal_and a (.wrapped (internal_and b c))).cf ∧
    (internal_or (.wrapped (internal_or a b)) c).cf
      = (internal_or a (.wrapped (internal_or b c))).cf := by
  simp only [internal_and, internal_or, more_internal_and_cf, more_internal_or_cf,
    get_cf, cf_conj, cf_disj]
  exact ⟨trivial, trivial, by ring, by ring, by ring, by ring⟩

/-- **C7**: when the condition's payload is unset or a stub, `If` returns
the condition itself (same payload, same certainty, neither branch);
otherwise it returns the branch selected by the payload's truthiness,
lifted to certainty 1 when bare and otherwise kept with the branch's own
certainty — the condition's certainty is dropped. -/
theorem if_selector (a b c : Operand) :
    ((is_none a || is_stub a) = true → If a b c = a) ∧
    ((is_none a || is_stub a) = false → truthy (get_val a) = true →
      If a b c = liftOperand b) ∧
    ((is_none a || is_stub a) = false → truthy (get_val a) = false →
      If a b c = liftOperand c) ∧
    (∀ v : Val, liftOperand (.bare v) = .wrapped ⟨v, 1⟩) ∧
    (∀ t : T, liftOperand (.wrapped t) = .wrapped t) := by
  refine ⟨?_, ?_, ?_, fun v => rfl, fun t => rfl⟩
  · intro h
    simp [If, h]
  · intro h ht
    simp [If, h, ht]
  · intro h ht
    simp [If, h, ht]

/-- Witness for C7: `If(Stub, 1, 2)` returns the stub condition itself,
while a resolved truthy condition at certainty `1/2` returns the bare
then-branch lifted at certainty 1. -/
theorem if_selector_witness :
    If (.wrapped (Stub 1)) (.bare (Val.int 1)) (.bare (Val.int 2)) = .wrapped (Stub 1) ∧
    If (.wrapped ⟨.bool true, 1/2⟩) (.bare (Val.int 1)) (.bare (Val.int 2))
      = .wrapped ⟨Val.int 1, 1⟩ :=
  ⟨(if_selector (.wrapped (Stub 1)) (.bare (Val.int 1)) (.bare (Val.int 2))).1
      (by decide),
   (if_selector (.wrapped ⟨.bool true, 1/2⟩) (.bare (Val.int 1)) (.bare (Val.int 2))).2.1
      (by decide) rfl⟩

/-- **C8** (counterexample): the stub marker is not a sentinel outside the
scalar space — it is itself the ordinary string `"#stub#"`, a value a fact
could legitimately hold, and a wrapped payload equal to that string is
classified as a stub. -/
theorem stub_marker_is_plain_string :
    StubVal = Val.str "#stub#" ∧
    is_stub (.wrapped ⟨Val.str "#stub#", 1⟩) = true :=
  ⟨rfl, by decide⟩

/-- **C8** (amended): a wrapped non-time-series payload is classified as a
stub exactly when it equals the marker string `"#stub#"`, and the marker is
never equal to `None` (Unset); but the marker is an ordinary string, so a
fact holding the string `"#stub#"` is indistinguishable from a stub. -/
theorem stub_classification (v : Val) (q : ℚ) (h : isTS v = false) :
    (is_stub (.wrapped ⟨v, q⟩) = true ↔ v = StubVal) ∧ StubVal ≠ Val.none := by
  constructor
  · unfold is_stub is_ts_T T.ts get_val StubVal
    cases v <;> simp_all [isTS, eq_stubval]
  · exact fun hc => Val.noConfusion hc

/-- Witness for C8: the marker itself is classified as a stub, and differs
from `None`. -/
theorem stub_classification_witness :
    is_stub (.wrapped ⟨StubVal, 1⟩) = true ∧ StubVal ≠ Val.none :=
  ⟨(stub_classification StubVal 1 rfl).1.mpr rfl,
   (stub_classification StubVal 1 rfl).2⟩

/-- **C9**: the public `~` (`T.invert`) is not the `Not` combinator on
unresolved payloads — it flips a stub payload to a wrapped `False` at the
same certainty (where `Not` propagates the stub), and rebuilds an unset
payload at default certainty 1 (dropping the argument's certainty); hence
`!=` (`T.ne`) yields a wrapped `False` at the product certainty whenever
either operand is a stub. -/
theorem invert_flips_unresolved (q : ℚ) (t : T) (o : Operand) :
    T.invert ⟨StubVal, q⟩ = ⟨.bool false, q⟩ ∧
    T.invert ⟨Val.none, q⟩ = ⟨Val.none, 1⟩ ∧
    Not (.wrapped ⟨StubVal, q⟩) = .wrapped ⟨StubVal, q⟩ ∧
    ((is_stub (.wrapped t) || is_stub o) = true →
      T.ne t o = ⟨.bool false, t.cf * get_cf o⟩) := by
  refine ⟨?_, ?_, ?_, ?_⟩
  · simp [T.invert, val_is_none, truthy, StubVal]
  · simp [T.invert, val_is_none]
  · simp [Not, is_none, is_stub, is_ts_T, T.ts, isTS, val_is_none, eq_stubval,
      get_val, StubVal]
  · intro h
    have hp : process_binary pyEq (.wrapped t) o = Stub (t.cf * get_cf o) := by
      simp [process_binary, cf_conj, h, get_cf]
    simp [T.ne, hp, Stub, T.invert, val_is_none, truthy, StubVal]

/-- Witness for C9: a stub at certainty `1/2` inverts to `False` at `1/2`,
an unset at `1/2` inverts to unset at 1, `Not` keeps the stub, and
`Stub != 5` is a wrapped `False`. -/
theorem invert_flips_unresolved_witness :
    T.invert ⟨StubVal, 1/2⟩ = ⟨.bool false, 1/2⟩ ∧
    T.invert ⟨Val.none, 1/2⟩ = ⟨Val.none, 1⟩ ∧
    Not (.wrapped ⟨StubVal, 1/2⟩) = .wrapped ⟨StubVal, 1/2⟩ ∧
    T.ne (Stub 1) (.bare (Val.int 5)) = ⟨.bool false, 1 * 1⟩ :=
  ⟨(invert_flips_unresolved (1/2) (Stub 1) (.bare (Val.int 5))).1,
   (invert_flips_unresolved (1/2) (Stub 1) (.bare (Val.int 5))).2.1,
   (invert_flips_unresolved (1/2) (Stub 1) (.bare (Val.int 5))).2.2.1,
   (invert_flips_unresolved (1/2) (Stub 1) (.bare (Val.int 5))).2.2.2 (by decide)⟩

/-- **C10**: the logic combinators recognize dominant operands by identity
with the boolean literals, not by truthiness — any integer payload (the
falsy `0` included) fails the `is False` test of `And`, so
`And(wrapped n, wrapped True)` is `True`, and any integer payload (the
truthy `1` included) fails the `is True` test of `Or`, so
`Or(wrapped n, wrapped False)` is `False`, each at its combinator's
certainty. -/
theorem and_or_identity_not_truthiness (n : Int) (ca cb : ℚ) :
    And (.wrapped ⟨Val.int n, ca⟩) [.wrapped ⟨.bool true, cb⟩]
      = .wrapped ⟨.bool true, ca * cb⟩ ∧
    Or (.wrapped ⟨Val.int n, ca⟩) [.wrapped ⟨.bool false, cb⟩]
      = .wrapped ⟨.bool false, ca + cb - ca * cb⟩ := by
  constructor <;>
    simp [And, Or, internal_and, internal_or, more_internal_and, more_internal_or,
      get_val, get_cf, val_is_false, val_is_true, val_is_none, eq_stubval]

end Akkadian
